import Mathlib

/-!
Shallow embedding of `petsafe/devices.py` (classes `DeviceSmartFeed` and
`DeviceScoopfree`).

Device snapshots (`self.data`) are JSON documents, modelled by `JVal`.
Python exceptions are modelled by `PyError`; every method of the two device
classes becomes a Lean function from a transport oracle and the current
snapshot to an `OpResult`, which records the HTTP requests issued, the
snapshot after the call (unchanged when an exception escapes before any
assignment to `self.data`), and the returned value or the escaping exception.
-/

/-- A parsed JSON document, as produced by `json.loads`. Objects are
association lists with the usual first-match lookup. -/
inductive JVal where
  | null
  | bool (b : Bool)
  | num (n : Int)
  | str (s : String)
  | arr (xs : List JVal)
  | obj (fs : List (String × JVal))

/-- Python exceptions that the embedded methods can raise. `remote` stands
for the HTTP error raised by `response.raise_for_status()`; it carries the
status code and the response body. -/
inductive PyError where
  | remote (status : Nat) (body : JVal)
  | keyError (k : String)
  | typeError
  | valueError

/-- First-match lookup in a JSON object's field list. -/
def lookupAssoc : List (String × JVal) → String → Option JVal
  | [], _ => none
  | (k', v) :: rest, k => if k' = k then some v else lookupAssoc rest k

/-- Python `d[k] = v` on a dict: overwrite the existing entry for `k`, or
append a new one. -/
def assocSet : List (String × JVal) → String → JVal → List (String × JVal)
  | [], k, v => [(k, v)]
  | (k', v') :: rest, k, v =>
      if k' = k then (k, v) :: rest else (k', v') :: assocSet rest k v

/-- Python subscripting `x[k]` with a string key: `KeyError` on a dict
missing the key, `TypeError` on any non-dict value (including `None`). -/
def pySubscript (x : JVal) (k : String) : Except PyError JVal :=
  match x with
  | .obj fs =>
    match lookupAssoc fs k with
    | some v => .ok v
    | none => .error (.keyError k)
  | _ => .error .typeError

/-- Python item assignment `x[k] = v` restricted to dicts; leaves any
non-dict unchanged (callers raise `TypeError` before using this case). -/
def JVal.setKey : JVal → String → JVal → JVal
  | .obj fs, k, v => .obj (assocSet fs k v)
  | x, _, _ => x

/-- Python truthiness of a JSON value (`bool(x)`). -/
def pyTruthy : JVal → Bool
  | .null => false
  | .bool b => b
  | .num n => n != 0
  | .str s => s != ""
  | .arr xs => !xs.isEmpty
  | .obj fs => !fs.isEmpty

/-- Digits of a decimal literal to a natural number; `none` if empty or a
non-digit occurs. -/
def digitsToNat : List Char → Option Nat
  | [] => none
  | cs => go cs 0
where
  go : List Char → Nat → Option Nat
    | [], acc => some acc
    | c :: rest, acc =>
        if c.isDigit then go rest (acc * 10 + (c.toNat - 48)) else none

/-- Python `int(s)` on a string: optional surrounding whitespace, optional
sign, then decimal digits; `none` models the `ValueError` raised otherwise. -/
def pyIntOfStr (s : String) : Option Int :=
  let stripped :=
    ((s.toList.dropWhile Char.isWhitespace).reverse.dropWhile Char.isWhitespace).reverse
  match stripped with
  | '+' :: rest => (digitsToNat rest).map Int.ofNat
  | '-' :: rest => (digitsToNat rest).map (fun n => -(n : Int))
  | rest => (digitsToNat rest).map Int.ofNat

/-- Python `int(x)` on a JSON value: ints pass through, bools coerce to 0/1,
strings are parsed (`ValueError` on failure), every other type raises
`TypeError`. -/
def pyInt (x : JVal) : Except PyError Int :=
  match x with
  | .num n => .ok n
  | .bool b => .ok (if b then 1 else 0)
  | .str s =>
    match pyIntOfStr s with
    | some n => .ok n
    | none => .error .valueError
  | _ => .error .typeError

/-- Python `round(q)`: round half to even, on exact rationals. -/
def pyRound (q : ℚ) : ℤ :=
  let f := ⌊q⌋
  let frac := q - (f : ℚ)
  if frac < 1 / 2 then f
  else if frac > 1 / 2 then f + 1
  else if f % 2 = 0 then f else f + 1

/-- Python `round(q, 3)`: round to 3 decimal places, half to even. -/
def pyRound3 (q : ℚ) : ℚ := (pyRound (q * 1000) : ℚ) / 1000

/-- HTTP method of a request issued by the client collaborator. -/
inductive Method where
  | get | post | put | patch | delete
deriving DecidableEq

/-- One HTTP request as issued through the client: method, path relative to
the API base, and JSON body (`JVal.null` for bodiless GET/DELETE). -/
structure Request where
  method : Method
  path : String
  body : JVal

/-- A transport response: HTTP status code and parsed JSON body. -/
structure Response where
  status : Nat
  content : JVal

/-- The transport collaborator (`self.client`): a deterministic oracle from
requests to responses. -/
def Transport := Request → Response

/-- 2xx success range. -/
def is2xx (s : Nat) : Bool := 200 ≤ s && s < 300

/-- Modelled from the spec: `response.raise_for_status()` of the transport
collaborator (not part of this repository) raises a remote error carrying
status and body whenever the status is outside the 2xx success range. -/
def raise_for_status (r : Response) : Except PyError Unit :=
  if is2xx r.status then .ok () else .error (.remote r.status r.content)

/-- Outcome of one embedded method call: the requests issued (in order), the
snapshot `self.data` after the call (unchanged when an exception escaped
before any assignment), and the value returned (`JVal.null` for Python
`None`) or the escaping exception. -/
structure OpResult where
  trace : List Request
  data : JVal
  ret : Except PyError JVal

/-! ## DeviceSmartFeed -/

/-- `DeviceSmartFeed.api_path`: `"smart-feed/feeders/" + self.data["thing_name"] + "/"`.
Subscripting can raise; concatenating a non-string raises `TypeError`. -/
def feeder_api_path (d : JVal) : Except PyError String :=
  match pySubscript d "thing_name" with
  | .error e => .error e
  | .ok (.str s) => .ok ("smart-feed/feeders/" ++ s ++ "/")
  | .ok _ => .error .typeError

/-- `DeviceSmartFeed.update_data`: GET the device path, raise on non-2xx,
then replace `self.data` wholesale with the parsed response body. -/
def update_data (t : Transport) (d : JVal) : OpResult :=
  match feeder_api_path d with
  | .error e => ⟨[], d, .error e⟩
  | .ok p =>
    let req : Request := ⟨.get, p, .null⟩
    match raise_for_status (t req) with
    | .error e => ⟨[req], d, .error e⟩
    | .ok _ => ⟨[req], (t req).content, .ok .null⟩

/-- `self.data["settings"][setting] = value`: `KeyError` when `settings` is
absent, `TypeError` when it is not a dict, otherwise a targeted merge of the
one key inside the `settings` sub-mapping. -/
def mergeSetting (d : JVal) (setting : String) (value : JVal) : Except PyError JVal :=
  match pySubscript d "settings" with
  | .error e => .error e
  | .ok (.obj fs) => .ok (d.setKey "settings" (.obj (assocSet fs setting value)))
  | .ok _ => .error .typeError

/-- `DeviceSmartFeed.put_setting`: PUT `settings/{setting}` with body
`{"value": value}`; on success either refresh everything (`force_update`) or
merge just the written key into `self.data["settings"]`. -/
def put_setting (t : Transport) (d : JVal) (setting : String) (value : JVal)
    (force_update : Bool) : OpResult :=
  match feeder_api_path d with
  | .error e => ⟨[], d, .error e⟩
  | .ok p =>
    let req : Request := ⟨.put, p ++ "settings/" ++ setting, .obj [("value", value)]⟩
    match raise_for_status (t req) with
    | .error e => ⟨[req], d, .error e⟩
    | .ok _ =>
      if force_update then
        let r := update_data t d
        ⟨req :: r.trace, r.data, r.ret⟩
      else
        match mergeSetting d setting value with
        | .error e => ⟨[req], d, .error e⟩
        | .ok d2 => ⟨[req], d2, .ok .null⟩

/-- `DeviceSmartFeed.get_messages_since`: GET `messages?days={n}` and return
the parsed body verbatim; no merge into `self.data`. -/
def get_messages_since (t : Transport) (d : JVal) (days : Nat) : OpResult :=
  match feeder_api_path d with
  | .error e => ⟨[], d, .error e⟩
  | .ok p =>
    let req : Request := ⟨.get, p ++ "messages?days=" ++ toString days, .null⟩
    match raise_for_status (t req) with
    | .error e => ⟨[req], d, .error e⟩
    | .ok _ => ⟨[req], d, .ok (t req).content⟩

/-- Python `message["message_type"] == "FEED_DONE"`: string comparison when
the value is a string, `False` for any other type (Python `==` never raises
here). -/
def isFeedDone (v : JVal) : Bool :=
  match v with
  | .str s => s = "FEED_DONE"
  | _ => false

/-- The loop body of `get_last_feeding`: first message whose
`message_type` equals `"FEED_DONE"`, else Python `None`. -/
def findFeedDone : List JVal → Except PyError JVal
  | [] => .ok .null
  | m :: rest =>
    match pySubscript m "message_type" with
    | .error e => .error e
    | .ok v => if isFeedDone v then .ok m else findFeedDone rest

/-- `DeviceSmartFeed.get_last_feeding`: fetch 7 days of messages, scan for
the first `FEED_DONE` message, return it or `None`. -/
def get_last_feeding (t : Transport) (d : JVal) : OpResult :=
  let r := get_messages_since t d 7
  match r.ret with
  | .error e => ⟨r.trace, r.data, .error e⟩
  | .ok (.arr msgs) => ⟨r.trace, r.data, findFeedDone msgs⟩
  | .ok _ => ⟨r.trace, r.data, .error .typeError⟩

/-- `DeviceSmartFeed.feed`: resolve `slow_feed` from the snapshot when the
caller passes `None`, POST `meals` with `{"amount", "slow_feed"}`, raise on
non-2xx, then optionally refresh. -/
def feed (t : Transport) (d : JVal) (amount : JVal) (slow_feed : Option JVal)
    (upd : Bool) : OpResult :=
  let sfE : Except PyError JVal :=
    match slow_feed with
    | some v => .ok v
    | none =>
      match pySubscript d "settings" with
      | .error e => .error e
      | .ok s => pySubscript s "slow_feed"
  match sfE with
  | .error e => ⟨[], d, .error e⟩
  | .ok sf =>
    match feeder_api_path d with
    | .error e => ⟨[], d, .error e⟩
    | .ok p =>
      let req : Request := ⟨.post, p ++ "meals", .obj [("amount", amount), ("slow_feed", sf)]⟩
      match raise_for_status (t req) with
      | .error e => ⟨[req], d, .error e⟩
      | .ok _ =>
        if upd then
          let r := update_data t d
          ⟨req :: r.trace, r.data, r.ret⟩
        else ⟨[req], d, .ok .null⟩

/-- `DeviceSmartFeed.repeat_feed`: find the last feeding, then feed
`last_feeding["amount"]`; subscripting the `None` returned when no feeding
was found raises `TypeError`. -/
def repeat_feed (t : Transport) (d : JVal) : OpResult :=
  let r := get_last_feeding t d
  match r.ret with
  | .error e => ⟨r.trace, r.data, .error e⟩
  | .ok lf =>
    match pySubscript lf "amount" with
    | .error e => ⟨r.trace, r.data, .error e⟩
    | .ok amt =>
      let r2 := feed t r.data amt none true
      ⟨r.trace ++ r2.trace, r2.data, r2.ret⟩

/-- `DeviceSmartFeed.prime`: `await self.feed(5, False)`. -/
def prime (t : Transport) (d : JVal) : OpResult :=
  feed t d (.num 5) (some (.bool false)) true

/-- `DeviceSmartFeed.schedule_feed`: POST `schedules` with time and amount,
optionally refresh, and return the parsed response body. -/
def schedule_feed (t : Transport) (d : JVal) (time : String) (amount : JVal)
    (upd : Bool) : OpResult :=
  match feeder_api_path d with
  | .error e => ⟨[], d, .error e⟩
  | .ok p =>
    let req : Request := ⟨.post, p ++ "schedules", .obj [("time", .str time), ("amount", amount)]⟩
    match raise_for_status (t req) with
    | .error e => ⟨[req], d, .error e⟩
    | .ok _ =>
      if upd then
        let r := update_data t d
        match r.ret with
        | .error e => ⟨req :: r.trace, r.data, .error e⟩
        | .ok _ => ⟨req :: r.trace, r.data, .ok (t req).content⟩
      else ⟨[req], d, .ok (t req).content⟩

/-- `DeviceSmartFeed.modify_schedule`: PUT `schedules/{id}` with time and
amount, then optionally refresh. -/
def modify_schedule (t : Transport) (d : JVal) (time : String) (amount : JVal)
    (schedule_id : String) (upd : Bool) : OpResult :=
  match feeder_api_path d with
  | .error e => ⟨[], d, .error e⟩
  | .ok p =>
    let req : Request :=
      ⟨.put, p ++ "schedules/" ++ schedule_id, .obj [("time", .str time), ("amount", amount)]⟩
    match raise_for_status (t req) with
    | .error e => ⟨[req], d, .error e⟩
    | .ok _ =>
      if upd then
        let r := update_data t d
        ⟨req :: r.trace, r.data, r.ret⟩
      else ⟨[req], d, .ok .null⟩

/-- `DeviceSmartFeed.delete_schedule`: DELETE `schedules/{id}`, then
optionally refresh. -/
def delete_schedule (t : Transport) (d : JVal) (schedule_id : String)
    (upd : Bool) : OpResult :=
  match feeder_api_path d with
  | .error e => ⟨[], d, .error e⟩
  | .ok p =>
    let req : Request := ⟨.delete, p ++ "schedules/" ++ schedule_id, .null⟩
    match raise_for_status (t req) with
    | .error e => ⟨[req], d, .error e⟩
    | .ok _ =>
      if upd then
        let r := update_data t d
        ⟨req :: r.trace, r.data, r.ret⟩
      else ⟨[req], d, .ok .null⟩

/-- `DeviceSmartFeed.delete_all_schedules`: DELETE `schedules`, then
optionally refresh. -/
def delete_all_schedules (t : Transport) (d : JVal) (upd : Bool) : OpResult :=
  match feeder_api_path d with
  | .error e => ⟨[], d, .error e⟩
  | .ok p =>
    let req : Request := ⟨.delete, p ++ "schedules", .null⟩
    match raise_for_status (t req) with
    | .error e => ⟨[req], d, .error e⟩
    | .ok _ =>
      if upd then
        let r := update_data t d
        ⟨req :: r.trace, r.data, r.ret⟩
      else ⟨[req], d, .ok .null⟩

/-- `DeviceSmartFeed.pause_schedules`: PUT `settings/paused` with
`{"value": value}`, then optionally refresh. -/
def pause_schedules (t : Transport) (d : JVal) (value : JVal) (upd : Bool) : OpResult :=
  match feeder_api_path d with
  | .error e => ⟨[], d, .error e⟩
  | .ok p =>
    let req : Request := ⟨.put, p ++ "settings/paused", .obj [("value", value)]⟩
    match raise_for_status (t req) with
    | .error e => ⟨[req], d, .error e⟩
    | .ok _ =>
      if upd then
        let r := update_data t d
        ⟨req :: r.trace, r.data, r.ret⟩
      else ⟨[req], d, .ok .null⟩

/-! ## DeviceSmartFeed read-only accessors -/

/-- `DeviceSmartFeed.battery_voltage`:
`round(int(self.data["battery_voltage"]) / 32767 * 7.2, 3)`, with
`except ValueError: return -1` — only `ValueError` is caught; any other
exception (e.g. `TypeError` from `int(None)`) escapes. -/
def battery_voltage (d : JVal) : Except PyError ℚ :=
  match pySubscript d "battery_voltage" with
  | .error e => .error e
  | .ok raw =>
    match pyInt raw with
    | .ok n => .ok (pyRound3 ((n : ℚ) / 32767 * (36 / 5)))
    | .error .valueError => .ok (-1)
    | .error e => .error e

/-- `DeviceSmartFeed.battery_level`: 0 when
`self.data["is_batteries_installed"]` is falsy, else
`round(max((100 * (int(raw) - 22755)) / (29100 - 22755), 0))`. -/
def battery_level (d : JVal) : Except PyError ℤ :=
  match pySubscript d "is_batteries_installed" with
  | .error e => .error e
  | .ok inst =>
    if !pyTruthy inst then .ok 0
    else
      match pySubscript d "battery_voltage" with
      | .error e => .error e
      | .ok raw =>
        match pyInt raw with
        | .error e => .error e
        | .ok n =>
          .ok (pyRound (max ((100 * ((n : ℚ) - 22755)) / (29100 - 22755)) 0))

/-! ## DeviceScoopfree -/

/-- `DeviceScoopfree.api_path`:
`"scoopfree/product/product/" + self.data["thingName"] + "/"`. -/
def scoopfree_api_path (d : JVal) : Except PyError String :=
  match pySubscript d "thingName" with
  | .error e => .error e
  | .ok (.str s) => .ok ("scoopfree/product/product/" ++ s ++ "/")
  | .ok _ => .error .typeError

/-- `DeviceScoopfree.update_data`: GET the device path, raise on non-2xx,
then replace `self.data` wholesale with the parsed response body. -/
def scoopfree_update_data (t : Transport) (d : JVal) : OpResult :=
  match scoopfree_api_path d with
  | .error e => ⟨[], d, .error e⟩
  | .ok p =>
    let req : Request := ⟨.get, p, .null⟩
    match raise_for_status (t req) with
    | .error e => ⟨[req], d, .error e⟩
    | .ok _ => ⟨[req], (t req).content, .ok .null⟩

/-- `DeviceScoopfree.patch_setting`: PATCH `settings` with body
`{setting: value}`; on success either refresh everything (`force_update`) or
write the one key at the top level of `self.data`. -/
def patch_setting (t : Transport) (d : JVal) (setting : String) (value : JVal)
    (force_update : Bool) : OpResult :=
  match scoopfree_api_path d with
  | .error e => ⟨[], d, .error e⟩
  | .ok p =>
    let req : Request := ⟨.patch, p ++ "settings", .obj [(setting, value)]⟩
    match raise_for_status (t req) with
    | .error e => ⟨[req], d, .error e⟩
    | .ok _ =>
      if force_update then
        let r := scoopfree_update_data t d
        ⟨req :: r.trace, r.data, r.ret⟩
      else
        match d with
        | .obj fs => ⟨[req], .obj (assocSet fs setting value), .ok .null⟩
        | _ => ⟨[req], d, .error .typeError⟩

/-- Shared tail of `rake`/`reset`/`modify_timer`: on `update_data=True`,
refresh and return `self.data["data"]`; otherwise return Python `None`. -/
def scoopfreeRefreshTail (t : Transport) (d : JVal) (req : Request)
    (upd : Bool) : OpResult :=
  if upd then
    let r := scoopfree_update_data t d
    match r.ret with
    | .error e => ⟨req :: r.trace, r.data, .error e⟩
    | .ok _ =>
      match pySubscript r.data "data" with
      | .error e => ⟨req :: r.trace, r.data, .error e⟩
      | .ok v => ⟨req :: r.trace, r.data, .ok v⟩
  else ⟨[req], d, .ok .null⟩

/-- `DeviceScoopfree.rake`: POST `rake-now` with an empty body, then
refresh and return the inner `data` field. -/
def rake (t : Transport) (d : JVal) (upd : Bool) : OpResult :=
  match scoopfree_api_path d with
  | .error e => ⟨[], d, .error e⟩
  | .ok p =>
    let req : Request := ⟨.post, p ++ "rake-now", .obj []⟩
    match raise_for_status (t req) with
    | .error e => ⟨[req], d, .error e⟩
    | .ok _ => scoopfreeRefreshTail t d req upd

/-- `DeviceScoopfree.reset`: PATCH `shadow` with `{"rakeCount": n}`, then
refresh and return the inner `data` field. -/
def reset (t : Transport) (d : JVal) (rakeCount : Int) (upd : Bool) : OpResult :=
  match scoopfree_api_path d with
  | .error e => ⟨[], d, .error e⟩
  | .ok p =>
    let req : Request := ⟨.patch, p ++ "shadow", .obj [("rakeCount", .num rakeCount)]⟩
    match raise_for_status (t req) with
    | .error e => ⟨[req], d, .error e⟩
    | .ok _ => scoopfreeRefreshTail t d req upd

/-- `DeviceScoopfree.modify_timer`: PATCH `shadow` with
`{"rakeDelayTime": n}`, then refresh and return the inner `data` field. -/
def modify_timer (t : Transport) (d : JVal) (rakeDelayTime : Int) (upd : Bool) : OpResult :=
  match scoopfree_api_path d with
  | .error e => ⟨[], d, .error e⟩
  | .ok p =>
    let req : Request := ⟨.patch, p ++ "shadow", .obj [("rakeDelayTime", .num rakeDelayTime)]⟩
    match raise_for_status (t req) with
    | .error e => ⟨[req], d, .error e⟩
    | .ok _ => scoopfreeRefreshTail t d req upd

/-! ## Property setters

Each Python property setter calls an `async def` method **without**
`await`. Per Python coroutine semantics, calling an `async def` function
only builds a suspended coroutine object; none of its body runs until the
coroutine is awaited. A coroutine is therefore modelled as a suspended
computation awaiting a transport, and a setter call returns the unchanged
snapshot, an empty request trace, and the pending coroutine it created
(which the property protocol then discards). -/

/-- A suspended coroutine: the computation that would run if awaited. -/
def Coroutine := Transport → OpResult

/-- Outcome of invoking a property setter: requests issued synchronously by
the assignment itself, the snapshot after the assignment, and the un-awaited
coroutine the setter built. -/
structure SetterResult where
  trace : List Request
  data : JVal
  pending : Coroutine

/-- `DeviceSmartFeed.paused` setter: `self.put_setting("paused", value)`
with no `await`. -/
def paused_setter (d : JVal) (v : JVal) : SetterResult :=
  ⟨[], d, fun t => put_setting t d "paused" v false⟩

/-- `DeviceSmartFeed.slow_feed` setter: `self.put_setting("slow_feed", value)`
with no `await`. -/
def slow_feed_setter (d : JVal) (v : JVal) : SetterResult :=
  ⟨[], d, fun t => put_setting t d "slow_feed" v false⟩

/-- `DeviceSmartFeed.child_lock` setter: `self.put_setting("child_lock", value)`
with no `await`. -/
def child_lock_setter (d : JVal) (v : JVal) : SetterResult :=
  ⟨[], d, fun t => put_setting t d "child_lock" v false⟩

/-- `DeviceSmartFeed.friendly_name` setter:
`self.put_setting("friendly_name", value)` with no `await`. -/
def friendly_name_setter (d : JVal) (v : JVal) : SetterResult :=
  ⟨[], d, fun t => put_setting t d "friendly_name" v false⟩

/-- `DeviceSmartFeed.pet_type` setter: `self.put_setting("pet_type", value)`
with no `await`. -/
def pet_type_setter (d : JVal) (v : JVal) : SetterResult :=
  ⟨[], d, fun t => put_setting t d "pet_type" v false⟩

/-- `DeviceScoopfree.friendly_name` setter:
`self.patch_setting("friendlyName", value)` with no `await`. -/
def scoopfree_friendly_name_setter (d : JVal) (v : JVal) : SetterResult :=
  ⟨[], d, fun t => patch_setting t d "friendlyName" v false⟩

/-! ## Concrete sample snapshots and transports used by witnesses -/

/-- A minimal feeder snapshot with identity and settings. -/
def demoFeeder : JVal :=
  .obj [("thing_name", .str "f1"),
        ("settings", .obj [("paused", .bool false), ("slow_feed", .bool true)])]

/-- A minimal litterbox snapshot with identity. -/
def demoScoopfree : JVal :=
  .obj [("thingName", .str "s1"), ("friendlyName", .str "box")]

/-- A transport that always answers with the given response. -/
def constT (r : Response) : Transport := fun _ => r

/-- `true` exactly for POST requests (feed commands go through POST `meals`). -/
def isPost (q : Request) : Bool :=
  match q.method with
  | .post => true
  | _ => false

/-- Feeder snapshot: batteries installed, raw voltage 32767 (above the
documented max). -/
def demoBattery32767 : JVal :=
  .obj [("is_batteries_installed", .bool true), ("battery_voltage", .num 32767)]

/-- Feeder snapshot: batteries installed, raw voltage 29100. -/
def demoBattery29100 : JVal :=
  .obj [("is_batteries_installed", .bool true), ("battery_voltage", .num 29100)]

/-- Feeder snapshot: no batteries installed, raw voltage 29100. -/
def demoBatteryOff : JVal :=
  .obj [("is_batteries_installed", .bool false), ("battery_voltage", .num 29100)]

/-- Feeder snapshot whose `battery_voltage` is the integer 32767. -/
def demoVolt32767 : JVal := .obj [("battery_voltage", .num 32767)]

/-- Feeder snapshot whose `battery_voltage` is an unparseable string. -/
def demoVoltBad : JVal := .obj [("battery_voltage", .str "unknown")]

/-- Feeder snapshot whose `battery_voltage` is JSON `null`. -/
def demoVoltNull : JVal := .obj [("battery_voltage", .null)]

/-- Feeder snapshot whose `battery_voltage` is the string `"29100"`. -/
def demoVoltStr : JVal := .obj [("battery_voltage", .str "29100")]

/-- A mutating call failed cleanly: the snapshot is its pre-call value and
the escaping exception is the remote error for the given response. -/
def failsCleanly (r : OpResult) (d : JVal) (resp : Response) : Prop :=
  r.data = d ∧ r.ret = .error (.remote resp.status resp.content)

/-! ## Helper lemmas -/

theorem lookupAssoc_assocSet_same (fs : List (String × JVal)) (k : String) (v : JVal) :
    lookupAssoc (assocSet fs k v) k = some v := by
  induction fs with
  | nil => simp [assocSet, lookupAssoc]
  | cons hd tl ih =>
    obtain ⟨k', v'⟩ := hd
    by_cases h : k' = k
    · simp [assocSet, h, lookupAssoc]
    · simp [assocSet, h, lookupAssoc, ih]

theorem lookupAssoc_assocSet_other (fs : List (String × JVal)) (k : String) (v : JVal)
    (k2 : String) (h : k2 ≠ k) :
    lookupAssoc (assocSet fs k v) k2 = lookupAssoc fs k2 := by
  induction fs with
  | nil => simp [assocSet, lookupAssoc, Ne.symm h]
  | cons hd tl ih =>
    obtain ⟨k', v'⟩ := hd
    by_cases hk : k' = k
    · subst hk
      simp [assocSet, lookupAssoc, Ne.symm h]
    · simp [assocSet, hk, lookupAssoc, ih]

theorem pyRound_nonneg (q : ℚ) (h : 0 ≤ q) : 0 ≤ pyRound q := by
  unfold pyRound
  have hf : (0 : ℤ) ≤ ⌊q⌋ := Int.floor_nonneg.mpr h
  dsimp only
  split
  · exact hf
  · split
    · omega
    · split <;> omega

theorem findFeedDone_of_no_match (msgs : List JVal)
    (h : ∀ m ∈ msgs, ∃ v, pySubscript m "message_type" = .ok v ∧ isFeedDone v = false) :
    findFeedDone msgs = .ok .null := by
  induction msgs with
  | nil => rfl
  | cons m rest ih =>
    obtain ⟨v, hv, hfd⟩ := h m (List.mem_cons_self m rest)
    have hrest := ih (fun m' hm' => h m' (List.mem_cons_of_mem m hm'))
    simp [findFeedDone, hv, hfd, hrest]

theorem update_data_trace_not_post (t : Transport) (d : JVal) :
    ∀ q ∈ (update_data t d).trace, isPost q = false := by
  unfold update_data
  split
  · simp
  · dsimp only
    split <;> simp [isPost]

/-! ## C3: refresh fully replaces the snapshot -/

/-- C3: a successful `update_data` (feeder and litterbox alike) replaces the
snapshot exactly with the parsed response body; in particular a response
equal to the current snapshot leaves the snapshot unchanged. -/
theorem update_data_replaces_snapshot (dF dS body : JVal) (pF pS : String) (st : Nat)
    (hpF : feeder_api_path dF = .ok pF)
    (hpS : scoopfree_api_path dS = .ok pS)
    (h2 : is2xx st = true) :
    (update_data (constT ⟨st, body⟩) dF).data = body ∧
    (update_data (constT ⟨st, body⟩) dF).ret = .ok .null ∧
    (scoopfree_update_data (constT ⟨st, body⟩) dS).data = body ∧
    (scoopfree_update_data (constT ⟨st, body⟩) dS).ret = .ok .null ∧
    (update_data (constT ⟨st, dF⟩) dF).data = dF ∧
    (scoopfree_update_data (constT ⟨st, dS⟩) dS).data = dS := by
  simp [update_data, scoopfree_update_data, hpF, hpS, constT, raise_for_status, h2]

/-- Witness for C3 at a concrete snapshot, path and 200 response. -/
theorem update_data_replaces_snapshot_witness :
    (update_data (constT ⟨200, JVal.num 7⟩) demoFeeder).data = JVal.num 7 ∧
    (update_data (constT ⟨200, JVal.num 7⟩) demoFeeder).ret = .ok .null ∧
    (scoopfree_update_data (constT ⟨200, JVal.num 7⟩) demoScoopfree).data = JVal.num 7 ∧
    (scoopfree_update_data (constT ⟨200, JVal.num 7⟩) demoScoopfree).ret = .ok .null ∧
    (update_data (constT ⟨200, demoFeeder⟩) demoFeeder).data = demoFeeder ∧
    (scoopfree_update_data (constT ⟨200, demoScoopfree⟩) demoScoopfree).data = demoScoopfree :=
  update_data_replaces_snapshot demoFeeder demoScoopfree (JVal.num 7)
    "smart-feed/feeders/f1/" "scoopfree/product/product/s1/" 200 rfl rfl rfl

/-! ## C9: deterministic API path construction -/

/-- C9: the feeder path is `"smart-feed/feeders/" ++ thing_name ++ "/"` and
the litterbox path is `"scoopfree/product/product/" ++ thingName ++ "/"`,
built by plain concatenation from the snapshot's identity field. -/
theorem api_path_construction (dF dS : JVal) (sF sS : String)
    (hF : pySubscript dF "thing_name" = .ok (.str sF))
    (hS : pySubscript dS "thingName" = .ok (.str sS)) :
    feeder_api_path dF = .ok ("smart-feed/feeders/" ++ sF ++ "/") ∧
    scoopfree_api_path dS = .ok ("scoopfree/product/product/" ++ sS ++ "/") := by
  simp [feeder_api_path, scoopfree_api_path, hF, hS]

/-- Witness for C9 at the two concrete demo snapshots. -/
theorem api_path_construction_witness :
    feeder_api_path demoFeeder = .ok ("smart-feed/feeders/" ++ "f1" ++ "/") ∧
    scoopfree_api_path demoScoopfree = .ok ("scoopfree/product/product/" ++ "s1" ++ "/") :=
  api_path_construction demoFeeder demoScoopfree "f1" "s1" rfl rfl

/-! ## C10: property setters never run their coroutine -/

/-- C10: each property setter calls an async method without `await`, so the
assignment itself issues no request and leaves the snapshot unchanged; the
work exists only as the pending, never-awaited coroutine. -/
theorem setters_no_request_no_merge (d v : JVal) :
    (paused_setter d v).trace = [] ∧ (paused_setter d v).data = d ∧
    (slow_feed_setter d v).trace = [] ∧ (slow_feed_setter d v).data = d ∧
    (child_lock_setter d v).trace = [] ∧ (child_lock_setter d v).data = d ∧
    (friendly_name_setter d v).trace = [] ∧ (friendly_name_setter d v).data = d ∧
    (pet_type_setter d v).trace = [] ∧ (pet_type_setter d v).data = d ∧
    (scoopfree_friendly_name_setter d v).trace = [] ∧
    (scoopfree_friendly_name_setter d v).data = d :=
  ⟨rfl, rfl, rfl, rfl, rfl, rfl, rfl, rfl, rfl, rfl, rfl, rfl⟩

/-! ## C5: battery percentage -/

/-- C5: `battery_level` is 0 whenever `is_batteries_installed` is falsy,
regardless of the raw voltage; with batteries installed it is
`round(max(100*(raw-22755)/(29100-22755), 0))`, so 29100 gives 100 and
22755 gives 0; it is never negative, but raw 32767 yields 158, so there is
no clamp above 100. -/
theorem battery_level_spec (d inst : JVal) (n : ℤ)
    (hinst : pySubscript d "is_batteries_installed" = .ok inst)
    (hraw : pySubscript d "battery_voltage" = .ok (.num n)) :
    (pyTruthy inst = false → battery_level d = .ok 0) ∧
    (pyTruthy inst = true →
      battery_level d =
        .ok (pyRound (max ((100 * ((n : ℚ) - 22755)) / (29100 - 22755)) 0)) ∧
      0 ≤ pyRound (max ((100 * ((n : ℚ) - 22755)) / (29100 - 22755)) 0)) ∧
    (pyTruthy inst = true → n = 29100 → battery_level d = .ok 100) ∧
    (pyTruthy inst = true → n = 22755 → battery_level d = .ok 0) ∧
    battery_level demoBatteryOff = .ok 0 ∧
    battery_level demoBattery32767 = .ok 158 := by
  refine ⟨?_, ?_, ?_, ?_, ?_, ?_⟩
  · intro hf
    simp [battery_level, hinst, hf]
  · intro ht
    refine ⟨?_, pyRound_nonneg _ (le_max_right _ _)⟩
    simp [battery_level, hinst, hraw, ht, pyInt]
  · intro ht hn
    subst hn
    simp [battery_level, hinst, hraw, ht, pyInt]
    norm_num [pyRound]
  · intro ht hn
    subst hn
    simp [battery_level, hinst, hraw, ht, pyInt]
    norm_num [pyRound]
  · simp [battery_level, demoBatteryOff, pySubscript, lookupAssoc, pyTruthy]
  · simp [battery_level, demoBattery32767, pySubscript, lookupAssoc, pyTruthy, pyInt]
    norm_num [pyRound]

/-- Witness for C5 at the installed/29100 snapshot. -/
theorem battery_level_spec_witness :
    (pyTruthy (.bool true) = false → battery_level demoBattery29100 = .ok 0) ∧
    (pyTruthy (.bool true) = true →
      battery_level demoBattery29100 =
        .ok (pyRound (max ((100 * (((29100 : ℤ) : ℚ) - 22755)) / (29100 - 22755)) 0)) ∧
      0 ≤ pyRound (max ((100 * (((29100 : ℤ) : ℚ) - 22755)) / (29100 - 22755)) 0)) ∧
    (pyTruthy (.bool true) = true → (29100 : ℤ) = 29100 →
      battery_level demoBattery29100 = .ok 100) ∧
    (pyTruthy (.bool true) = true → (29100 : ℤ) = 22755 →
      battery_level demoBattery29100 = .ok 0) ∧
    battery_level demoBatteryOff = .ok 0 ∧
    battery_level demoBattery32767 = .ok 158 :=
  battery_level_spec demoBattery29100 (.bool true) 29100 rfl rfl

/-! ## C6: battery voltage scaling and the -1 sentinel -/

/-- C6 counterexample: a snapshot whose raw `battery_voltage` is JSON
`null` cannot be parsed as a number, yet the accessor raises `TypeError`
(only `ValueError` is caught) instead of returning the sentinel -1. -/
theorem battery_voltage_null_not_sentinel :
    battery_voltage demoVoltNull = .error .typeError ∧
    battery_voltage demoVoltNull ≠ .ok (-1) := by
  refine ⟨rfl, ?_⟩
  intro h
  rw [show battery_voltage demoVoltNull = .error .typeError from rfl] at h
  exact Except.noConfusion h

/-- C6 amended: when the raw value is an integer (or a string parsing as
one) the accessor returns `round(raw/32767*7.2, 3)`, and 32767 yields 7.2;
when the raw value is a string that fails integer parsing the `ValueError`
is caught and -1 returned; but a raw value of a non-numeric, non-string
type (e.g. `null`) raises an uncaught `TypeError` instead of -1. -/
theorem battery_voltage_amended (d1 d2 d3 d4 : JVal) (n m : ℤ) (s2 s4 : String)
    (h1 : pySubscript d1 "battery_voltage" = .ok (.num n))
    (h2 : pySubscript d2 "battery_voltage" = .ok (.str s2))
    (hs2 : pyIntOfStr s2 = none)
    (h3 : pySubscript d3 "battery_voltage" = .ok .null)
    (h4 : pySubscript d4 "battery_voltage" = .ok (.str s4))
    (hs4 : pyIntOfStr s4 = some m) :
    battery_voltage d1 = .ok (pyRound3 ((n : ℚ) / 32767 * (36 / 5))) ∧
    (n = 32767 → battery_voltage d1 = .ok (36 / 5)) ∧
    battery_voltage d4 = .ok (pyRound3 ((m : ℚ) / 32767 * (36 / 5))) ∧
    battery_voltage d2 = .ok (-1) ∧
    battery_voltage d3 = .error .typeError := by
  refine ⟨?_, ?_, ?_, ?_, ?_⟩
  · simp [battery_voltage, h1, pyInt]
  · intro hn
    subst hn
    simp [battery_voltage, h1, pyInt]
    norm_num [pyRound3, pyRound]
  · simp [battery_voltage, h4, pyInt, hs4]
  · simp [battery_voltage, h2, pyInt, hs2]
  · simp [battery_voltage, h3, pyInt]

/-- Witness for the amended C6 at four concrete snapshots. -/
theorem battery_voltage_amended_witness :
    battery_voltage demoVolt32767 = .ok (pyRound3 (((32767 : ℤ) : ℚ) / 32767 * (36 / 5))) ∧
    ((32767 : ℤ) = 32767 → battery_voltage demoVolt32767 = .ok (36 / 5)) ∧
    battery_voltage demoVoltStr = .ok (pyRound3 (((29100 : ℤ) : ℚ) / 32767 * (36 / 5))) ∧
    battery_voltage demoVoltBad = .ok (-1) ∧
    battery_voltage demoVoltNull = .error .typeError :=
  battery_voltage_amended demoVolt32767 demoVoltBad demoVoltNull demoVoltStr
    32767 29100 "unknown" "29100" rfl rfl rfl rfl rfl rfl

/-! ## C2: non-2xx responses raise and leave the snapshot untouched -/

/-- C2: every mutating operation of both devices, when the transport answers
with a non-2xx status, raises the remote error carrying that status and body
and leaves the snapshot exactly equal to its pre-call value, for every
choice of arguments and update flags. -/
theorem mutating_ops_non2xx_fail_cleanly (dF dS sObj sv : JVal) (pF pS : String)
    (resp : Response) (k time sid : String) (v amt b : JVal) (fu upd : Bool)
    (rc rdt : Int)
    (hpF : feeder_api_path dF = .ok pF)
    (hpS : scoopfree_api_path dS = .ok pS)
    (hset : pySubscript dF "settings" = .ok sObj)
    (hsv : pySubscript sObj "slow_feed" = .ok sv)
    (hne : is2xx resp.status = false) :
    failsCleanly (put_setting (constT resp) dF k v fu) dF resp ∧
    failsCleanly (feed (constT resp) dF amt (some b) upd) dF resp ∧
    failsCleanly (feed (constT resp) dF amt none upd) dF resp ∧
    failsCleanly (schedule_feed (constT resp) dF time amt upd) dF resp ∧
    failsCleanly (modify_schedule (constT resp) dF time amt sid upd) dF resp ∧
    failsCleanly (delete_schedule (constT resp) dF sid upd) dF resp ∧
    failsCleanly (delete_all_schedules (constT resp) dF upd) dF resp ∧
    failsCleanly (pause_schedules (constT resp) dF v upd) dF resp ∧
    failsCleanly (patch_setting (constT resp) dS k v fu) dS resp ∧
    failsCleanly (rake (constT resp) dS upd) dS resp ∧
    failsCleanly (reset (constT resp) dS rc upd) dS resp ∧
    failsCleanly (modify_timer (constT resp) dS rdt upd) dS resp := by
  simp [failsCleanly, put_setting, feed, schedule_feed, modify_schedule,
    delete_schedule, delete_all_schedules, pause_schedules, patch_setting,
    rake, reset, modify_timer, hpF, hpS, hset, hsv, constT,
    raise_for_status, hne]

/-- Witness for C2: a 500 response against the two demo snapshots, with
concrete arguments for every operation. -/
theorem mutating_ops_non2xx_fail_cleanly_witness :
    failsCleanly (put_setting (constT ⟨500, .str "err"⟩) demoFeeder "paused" (.bool true) false)
      demoFeeder ⟨500, .str "err"⟩ ∧
    failsCleanly (feed (constT ⟨500, .str "err"⟩) demoFeeder (.num 2) (some (.bool false)) true)
      demoFeeder ⟨500, .str "err"⟩ ∧
    failsCleanly (feed (constT ⟨500, .str "err"⟩) demoFeeder (.num 2) none true)
      demoFeeder ⟨500, .str "err"⟩ ∧
    failsCleanly (schedule_feed (constT ⟨500, .str "err"⟩) demoFeeder "08:00" (.num 2) true)
      demoFeeder ⟨500, .str "err"⟩ ∧
    failsCleanly (modify_schedule (constT ⟨500, .str "err"⟩) demoFeeder "08:00" (.num 2) "123456" true)
      demoFeeder ⟨500, .str "err"⟩ ∧
    failsCleanly (delete_schedule (constT ⟨500, .str "err"⟩) demoFeeder "123456" true)
      demoFeeder ⟨500, .str "err"⟩ ∧
    failsCleanly (delete_all_schedules (constT ⟨500, .str "err"⟩) demoFeeder true)
      demoFeeder ⟨500, .str "err"⟩ ∧
    failsCleanly (pause_schedules (constT ⟨500, .str "err"⟩) demoFeeder (.bool true) true)
      demoFeeder ⟨500, .str "err"⟩ ∧
    failsCleanly (patch_setting (constT ⟨500, .str "err"⟩) demoScoopfree "paused" (.bool true) false)
      demoScoopfree ⟨500, .str "err"⟩ ∧
    failsCleanly (rake (constT ⟨500, .str "err"⟩) demoScoopfree true)
      demoScoopfree ⟨500, .str "err"⟩ ∧
    failsCleanly (reset (constT ⟨500, .str "err"⟩) demoScoopfree 0 true)
      demoScoopfree ⟨500, .str "err"⟩ ∧
    failsCleanly (modify_timer (constT ⟨500, .str "err"⟩) demoScoopfree 15 true)
      demoScoopfree ⟨500, .str "err"⟩ :=
  mutating_ops_non2xx_fail_cleanly demoFeeder demoScoopfree
    (.obj [("paused", .bool false), ("slow_feed", .bool true)]) (.bool true)
    "smart-feed/feeders/f1/" "scoopfree/product/product/s1/"
    ⟨500, .str "err"⟩ "paused" "08:00" "123456" (.bool true) (.num 2) (.bool false)
    false true 0 15 rfl rfl rfl rfl rfl

/-! ## C4: targeted merge touches exactly one key -/

/-- C4: a successful `put_setting`/`patch_setting` without forced refresh
changes only the written key: the feeder writes it inside the `settings`
sub-mapping (every other settings key and every other top-level key keeps
its value), while the litterbox writes it at the top level of the snapshot
(every other top-level key keeps its value). -/
theorem apply_setting_targeted_merge (hs fs gs : List (String × JVal))
    (pF pS : String) (k k2top k2in kS k2S : String) (v vS : JVal) (resp : Response)
    (hpF : feeder_api_path (.obj hs) = .ok pF)
    (hpS : scoopfree_api_path (.obj gs) = .ok pS)
    (hset : lookupAssoc hs "settings" = some (.obj fs))
    (h2 : is2xx resp.status = true)
    (htop : k2top ≠ "settings")
    (hin : k2in ≠ k)
    (hkS : k2S ≠ kS) :
    (put_setting (constT resp) (.obj hs) k v false).ret = .ok .null ∧
    (put_setting (constT resp) (.obj hs) k v false).data =
      .obj (assocSet hs "settings" (.obj (assocSet fs k v))) ∧
    pySubscript (.obj (assocSet hs "settings" (.obj (assocSet fs k v)))) "settings" =
      .ok (.obj (assocSet fs k v)) ∧
    lookupAssoc (assocSet fs k v) k = some v ∧
    lookupAssoc (assocSet fs k v) k2in = lookupAssoc fs k2in ∧
    pySubscript (.obj (assocSet hs "settings" (.obj (assocSet fs k v)))) k2top =
      pySubscript (.obj hs) k2top ∧
    (patch_setting (constT resp) (.obj gs) kS vS false).ret = .ok .null ∧
    (patch_setting (constT resp) (.obj gs) kS vS false).data = .obj (assocSet gs kS vS) ∧
    pySubscript (.obj (assocSet gs kS vS)) kS = .ok vS ∧
    pySubscript (.obj (assocSet gs kS vS)) k2S = pySubscript (.obj gs) k2S := by
  refine ⟨?_, ?_, ?_, ?_, ?_, ?_, ?_, ?_, ?_, ?_⟩
  · simp [put_setting, hpF, constT, raise_for_status, h2, mergeSetting,
      pySubscript, hset, JVal.setKey]
  · simp [put_setting, hpF, constT, raise_for_status, h2, mergeSetting,
      pySubscript, hset, JVal.setKey]
  · simp [pySubscript, lookupAssoc_assocSet_same]
  · exact lookupAssoc_assocSet_same fs k v
  · exact lookupAssoc_assocSet_other fs k v k2in hin
  · simp [pySubscript, lookupAssoc_assocSet_other hs "settings" _ k2top htop]
  · simp [patch_setting, hpS, constT, raise_for_status, h2]
  · simp [patch_setting, hpS, constT, raise_for_status, h2]
  · simp [pySubscript, lookupAssoc_assocSet_same]
  · simp [pySubscript, lookupAssoc_assocSet_other gs kS vS k2S hkS]

/-- Witness for C4: writing `slow_feed` on the feeder and `friendlyName` on
the litterbox with a 204 response, and checking the untouched keys. -/
theorem apply_setting_targeted_merge_witness :
    (put_setting (constT ⟨204, .null⟩)
        (.obj [("thing_name", .str "f1"),
               ("settings", .obj [("paused", .bool false), ("slow_feed", .bool true)])])
        "slow_feed" (.bool false) false).ret = .ok .null ∧
    (put_setting (constT ⟨204, .null⟩)
        (.obj [("thing_name", .str "f1"),
               ("settings", .obj [("paused", .bool false), ("slow_feed", .bool true)])])
        "slow_feed" (.bool false) false).data =
      .obj (assocSet [("thing_name", .str "f1"),
                      ("settings", .obj [("paused", .bool false), ("slow_feed", .bool true)])]
             "settings"
             (.obj (assocSet [("paused", .bool false), ("slow_feed", .bool true)]
                     "slow_feed" (.bool false)))) ∧
    pySubscript (.obj (assocSet [("thing_name", .str "f1"),
                      ("settings", .obj [("paused", .bool false), ("slow_feed", .bool true)])]
             "settings"
             (.obj (assocSet [("paused", .bool false), ("slow_feed", .bool true)]
                     "slow_feed" (.bool false))))) "settings" =
      .ok (.obj (assocSet [("paused", .bool false), ("slow_feed", .bool true)]
                  "slow_feed" (.bool false))) ∧
    lookupAssoc (assocSet [("paused", .bool false), ("slow_feed", .bool true)]
        "slow_feed" (.bool false)) "slow_feed" = some (.bool false) ∧
    lookupAssoc (assocSet [("paused", .bool false), ("slow_feed", .bool true)]
        "slow_feed" (.bool false)) "paused" =
      lookupAssoc [("paused", .bool false), ("slow_feed", .bool true)] "paused" ∧
    pySubscript (.obj (assocSet [("thing_name", .str "f1"),
                      ("settings", .obj [("paused", .bool false), ("slow_feed", .bool true)])]
             "settings"
             (.obj (assocSet [("paused", .bool false), ("slow_feed", .bool true)]
                     "slow_feed" (.bool false))))) "thing_name" =
      pySubscript (.obj [("thing_name", .str "f1"),
               ("settings", .obj [("paused", .bool false), ("slow_feed", .bool true)])])
        "thing_name" ∧
    (patch_setting (constT ⟨204, .null⟩)
        (.obj [("thingName", .str "s1"), ("friendlyName", .str "box")])
        "friendlyName" (.str "new") false).ret = .ok .null ∧
    (patch_setting (constT ⟨204, .null⟩)
        (.obj [("thingName", .str "s1"), ("friendlyName", .str "box")])
        "friendlyName" (.str "new") false).data =
      .obj (assocSet [("thingName", .str "s1"), ("friendlyName", .str "box")]
             "friendlyName" (.str "new")) ∧
    pySubscript (.obj (assocSet [("thingName", .str "s1"), ("friendlyName", .str "box")]
             "friendlyName" (.str "new"))) "friendlyName" = .ok (.str "new") ∧
    pySubscript (.obj (assocSet [("thingName", .str "s1"), ("friendlyName", .str "box")]
             "friendlyName" (.str "new"))) "thingName" =
      pySubscript (.obj [("thingName", .str "s1"), ("friendlyName", .str "box")]) "thingName" :=
  apply_setting_targeted_merge
    [("thing_name", .str "f1"),
     ("settings", .obj [("paused", .bool false), ("slow_feed", .bool true)])]
    [("paused", .bool false), ("slow_feed", .bool true)]
    [("thingName", .str "s1"), ("friendlyName", .str "box")]
    "smart-feed/feeders/f1/" "scoopfree/product/product/s1/"
    "slow_feed" "thing_name" "paused" "friendlyName" "thingName"
    (.bool false) (.str "new") ⟨204, .null⟩
    rfl rfl rfl rfl (by decide) (by decide) (by decide)

/-! ## C7: prime always feeds 5 with slow_feed off -/

/-- C7: `prime` issues exactly one feed (POST `meals`) request, with body
`{"amount": 5, "slow_feed": false}`, for every snapshot and transport — the
snapshot's own slow-feed setting is never consulted. -/
theorem prime_single_meals_post (t : Transport) (d : JVal) (p : String)
    (hpF : feeder_api_path d = .ok p) :
    (prime t d).trace.filter isPost =
      [⟨.post, p ++ "meals", .obj [("amount", .num 5), ("slow_feed", .bool false)]⟩] := by
  simp only [prime, feed, hpF]
  split
  · simp [isPost]
  · simp [isPost]
    exact fun a ha => update_data_trace_not_post t d a ha

/-- Witness for C7 at the demo feeder (whose stored slow-feed is `true`)
with a 200 transport. -/
theorem prime_single_meals_post_witness :
    (prime (constT ⟨200, .null⟩) demoFeeder).trace.filter isPost =
      [⟨.post, "smart-feed/feeders/f1/" ++ "meals",
        .obj [("amount", .num 5), ("slow_feed", .bool false)]⟩] :=
  prime_single_meals_post (constT ⟨200, .null⟩) demoFeeder "smart-feed/feeders/f1/" rfl

/-! ## C8: feed resolves slow_feed from the snapshot only when unspecified -/

/-- C8: when the caller passes no explicit slow-feed value, the POSTed feed
request carries the snapshot's `settings.slow_feed` value; an explicit
value is sent unchanged, whatever the snapshot holds. -/
theorem feed_slow_feed_resolution (t : Transport) (d sObj sv amt b : JVal) (p : String)
    (upd : Bool)
    (hpF : feeder_api_path d = .ok p)
    (hset : pySubscript d "settings" = .ok sObj)
    (hsv : pySubscript sObj "slow_feed" = .ok sv) :
    (feed t d amt none upd).trace.filter isPost =
      [⟨.post, p ++ "meals", .obj [("amount", amt), ("slow_feed", sv)]⟩] ∧
    (feed t d amt (some b) upd).trace.filter isPost =
      [⟨.post, p ++ "meals", .obj [("amount", amt), ("slow_feed", b)]⟩] := by
  constructor
  · simp only [feed, hset, hsv, hpF]
    split
    · simp [isPost]
    · split
      · simp [isPost]
        exact fun a ha => update_data_trace_not_post t d a ha
      · simp [isPost]
  · simp only [feed, hpF]
    split
    · simp [isPost]
    · split
      · simp [isPost]
        exact fun a ha => update_data_trace_not_post t d a ha
      · simp [isPost]

/-- Witness for C8 at the demo feeder (stored slow-feed `true`, explicit
value `false`) with a 200 transport. -/
theorem feed_slow_feed_resolution_witness :
    (feed (constT ⟨200, .null⟩) demoFeeder (.num 2) none true).trace.filter isPost =
      [⟨.post, "smart-feed/feeders/f1/" ++ "meals",
        .obj [("amount", .num 2), ("slow_feed", .bool true)]⟩] ∧
    (feed (constT ⟨200, .null⟩) demoFeeder (.num 2) (some (.bool false)) true).trace.filter isPost =
      [⟨.post, "smart-feed/feeders/f1/" ++ "meals",
        .obj [("amount", .num 2), ("slow_feed", .bool false)]⟩] :=
  feed_slow_feed_resolution (constT ⟨200, .null⟩) demoFeeder
    (.obj [("paused", .bool false), ("slow_feed", .bool true)]) (.bool true)
    (.num 2) (.bool false) "smart-feed/feeders/f1/" true rfl rfl rfl

/-! ## C1: repeat_feed with no FEED_DONE message -/

/-- C1 counterexample: with an empty message history, `repeat_feed` does
not return a no-result indicator — it raises `TypeError` (subscripting the
`None` returned by `get_last_feeding`); no feed request is issued. -/
theorem repeat_feed_empty_history_not_silent :
    (repeat_feed (constT ⟨200, .arr []⟩) demoFeeder).ret = .error .typeError ∧
    (repeat_feed (constT ⟨200, .arr []⟩) demoFeeder).ret ≠ .ok .null ∧
    (repeat_feed (constT ⟨200, .arr []⟩) demoFeeder).trace.filter isPost = [] := by
  refine ⟨rfl, ?_, rfl⟩
  intro h
  rw [show (repeat_feed (constT ⟨200, .arr []⟩) demoFeeder).ret = .error .typeError
      from rfl] at h
  exact Except.noConfusion h

/-- C1 amended: for every feed-history (the empty one included) in which
every message has a `message_type` other than `"FEED_DONE"`, `repeat_feed`
raises `TypeError` by subscripting `None`, leaves the snapshot unchanged,
and never issues a feed request. -/
theorem repeat_feed_no_feed_done_raises (msgs : List JVal) (d : JVal) (p : String)
    (st : Nat)
    (hpF : feeder_api_path d = .ok p)
    (h2 : is2xx st = true)
    (hmsgs : ∀ m ∈ msgs, ∃ v, pySubscript m "message_type" = .ok v ∧ isFeedDone v = false) :
    (repeat_feed (constT ⟨st, .arr msgs⟩) d).ret = .error .typeError ∧
    (repeat_feed (constT ⟨st, .arr msgs⟩) d).data = d ∧
    (repeat_feed (constT ⟨st, .arr msgs⟩) d).trace.filter isPost = [] := by
  have hfind := findFeedDone_of_no_match msgs hmsgs
  simp [repeat_feed, get_last_feeding, get_messages_since, hpF, constT,
    raise_for_status, h2, hfind, pySubscript, isPost]

/-- Witness for the amended C1: the empty history against the demo feeder. -/
theorem repeat_feed_no_feed_done_raises_witness :
    (repeat_feed (constT ⟨200, .arr []⟩) demoFeeder).ret = .error .typeError ∧
    (repeat_feed (constT ⟨200, .arr []⟩) demoFeeder).data = demoFeeder ∧
    (repeat_feed (constT ⟨200, .arr []⟩) demoFeeder).trace.filter isPost = [] :=
  repeat_feed_no_feed_done_raises [] demoFeeder "smart-feed/feeders/f1/" 200 rfl rfl
    (by simp)
